import Mathlib

/-!
Shallow embedding of the clicktt window-manipulation library
(src/lib.rs, src/utils.rs, src/platform/{mod,windows,linux,macos}.rs).

The OS window registries (Win32 window table, X11 server, the CoreGraphics
window list) are modelled as explicit state records; each backend function is
translated from the corresponding Rust function, with the OS queries it makes
reading from that state.  Fallible Rust functions returning napi Result are
embedded as Except NapiError.  Machine integers: window handles are i64,
embedded as Int; style words and property words are non-negative bit patterns,
embedded as Nat with Lean bitwise operators (the Rust expression
ex_style & !MASK on a non-negative style word is embedded as
ex ^^^ (ex &&& MASK), which clears exactly the MASK bits).
-/

/-- Embeds napi::Status (only the variants this crate constructs). -/
inductive Status where
  | InvalidArg
  | GenericFailure
deriving DecidableEq, Repr

/-- Embeds napi::Error: a status together with its message string.  Where the
Rust code interpolates a dynamic OS error into the message, the model keeps
the constant prefix only. -/
structure NapiError where
  status : Status
  message : String
deriving DecidableEq, Repr

/-- Error built by every null-handle check: Error::new(Status::InvalidArg,
"Invalid window handle"). -/
def invalidHandleErr : NapiError :=
  { status := Status.InvalidArg, message := "Invalid window handle" }

/-- Error built when XOpenDisplay returns null (linux.rs). -/
def displayErr : NapiError :=
  { status := Status.GenericFailure, message := "Cannot open X11 display" }

/-- Error built by the non-Windows fallbacks in platform/mod.rs; the spec's
error taxonomy calls this outcome Unsupported. -/
def notImplementedErr : NapiError :=
  { status := Status.GenericFailure, message := "Not implemented for this platform" }

/-- Error built when OpenProcess fails (windows.rs, message prefix only). -/
def openProcessErr : NapiError :=
  { status := Status.GenericFailure, message := "Failed to open process" }

/-- Embeds the WindowInfo struct of src/lib.rs (process_id is u32 in the
source; the model uses Nat). -/
structure WindowInfo where
  handle : Int
  title : String
  process_id : Nat
  class_name : String
  visible : Bool
  x : Int
  y : Int
  width : Int
  height : Int
  path : String
deriving DecidableEq, Repr

namespace Win32

/-- Extended-style bit WS_EX_TRANSPARENT. -/
def WS_EX_TRANSPARENT : Nat := 0x20
/-- Extended-style bit WS_EX_LAYERED. -/
def WS_EX_LAYERED : Nat := 0x80000
/-- Extended-style bit WS_EX_TOOLWINDOW. -/
def WS_EX_TOOLWINDOW : Nat := 0x80
/-- Extended-style bit WS_EX_NOACTIVATE. -/
def WS_EX_NOACTIVATE : Nat := 0x8000000

/-- A live Win32 window as the OS reports it: the data behind
IsWindowVisible, GetWindowText, GetClassName, GetWindowLongPtr(GWL_EXSTYLE),
GetWindowRect (none = the call fails) and GetWindowThreadProcessId. -/
structure Window where
  visible : Bool
  title : String
  className : String
  exStyle : Nat
  rect : Option (Int × Int × Int × Int)
  pid : Nat

/-- The Win32 OS state: the window table (none = the handle does not resolve
to a live window), the process table behind OpenProcess +
K32GetModuleFileNameExW (none = OpenProcess fails; some p = the module path,
possibly empty when the path read returns length 0), and the handle order
EnumWindows reports. -/
structure OS where
  windows : Int → Option Window
  processes : Nat → Option String
  enumOrder : List Int

/-- IsWindowVisible: false for a dead handle. -/
def winVisible (os : OS) (h : Int) : Bool :=
  ((os.windows h).map Window.visible).getD false

/-- get_window_title: GetWindowTextLength/GetWindowText degrade to the empty
string for a dead handle. -/
def winTitle (os : OS) (h : Int) : String :=
  ((os.windows h).map Window.title).getD ""

/-- get_window_class: empty string for a dead handle. -/
def winClass (os : OS) (h : Int) : String :=
  ((os.windows h).map Window.className).getD ""

/-- GetWindowLongPtrW(GWL_EXSTYLE): 0 for a dead handle. -/
def winExStyle (os : OS) (h : Int) : Nat :=
  ((os.windows h).map Window.exStyle).getD 0

/-- GetWindowThreadProcessId output parameter: stays 0 for a dead handle. -/
def winPid (os : OS) (h : Int) : Nat :=
  ((os.windows h).map Window.pid).getD 0

/-- get_window_rect_info: (left, top, right-left, bottom-top) on success,
(0,0,0,0) when GetWindowRect fails. -/
def winRectInfo (os : OS) (h : Int) : Int × Int × Int × Int :=
  match (os.windows h).bind Window.rect with
  | some (l, t, r, b) => (l, t, r - l, b - t)
  | none => (0, 0, 0, 0)

/-- SetWindowLongPtrW(GWL_EXSTYLE, v): updates the style word of a live
window; a dead handle is left unchanged (the OS call fails silently there). -/
def winSetExStyle (os : OS) (h : Int) (v : Nat) : OS :=
  { os with
    windows := fun k =>
      if k = h then (os.windows k).map (fun w => { w with exStyle := v })
      else os.windows k }

/-- The new extended-style word computed by set_click_through (windows.rs
lines 30-36): enable adds WS_EX_TRANSPARENT | WS_EX_LAYERED; disable removes
WS_EX_TRANSPARENT (embedded as the xor-with-masked-bits form of
ex & !WS_EX_TRANSPARENT) and keeps WS_EX_LAYERED. -/
def newExStyle (ex : Nat) (enable : Bool) : Nat :=
  if enable then ex ||| (WS_EX_TRANSPARENT ||| WS_EX_LAYERED)
  else (ex ^^^ (ex &&& WS_EX_TRANSPARENT)) ||| WS_EX_LAYERED

/-- set_click_through (windows.rs lines 21-56): rejects the null handle,
otherwise rewrites the extended style.  The SetWindowPos frame refresh has no
modelled observable effect. -/
def set_click_through (os : OS) (h : Int) (enable : Bool) :
    Except NapiError OS :=
  if h = 0 then .error invalidHandleErr
  else .ok (winSetExStyle os h (newExStyle (winExStyle os h) enable))

/-- is_click_through (windows.rs lines 66-76): rejects the null handle,
otherwise tests the live WS_EX_TRANSPARENT bit. -/
def is_click_through (os : OS) (h : Int) : Except NapiError Bool :=
  if h = 0 then .error invalidHandleErr
  else .ok (decide (winExStyle os h &&& WS_EX_TRANSPARENT ≠ 0))

/-- toggle_click_through (windows.rs lines 59-63): read, invert, write,
return the new value. -/
def toggle_click_through (os : OS) (h : Int) :
    Except NapiError (OS × Bool) := do
  let current ← is_click_through os h
  let os2 ← set_click_through os h (!current)
  pure (os2, !current)

/-- Two toggle_click_through calls in sequence on the same handle (the
round-trip scenario of the spec); the value is the one the second call
returns. -/
def toggleTwice (os : OS) (h : Int) : Except NapiError Bool := do
  let r1 ← toggle_click_through os h
  let r2 ← toggle_click_through r1.1 h
  pure r2.2

/-- get_window_process_path (windows.rs lines 313-348): null check, pid from
the handle, OpenProcess, module path (an empty path read yields Ok "",
folded into the process table). -/
def get_window_process_path (os : OS) (h : Int) : Except NapiError String :=
  if h = 0 then .error invalidHandleErr
  else
    match os.processes (winPid os h) with
    | none => .error openProcessErr
    | some p => .ok p

/-- The path field stored in enumeration records:
get_window_process_path(handle).unwrap_or_default(). -/
def winPath (os : OS) (h : Int) : String :=
  match get_window_process_path os h with
  | .ok s => s
  | .error _ => ""

/-- The class-name denylist of enum_windows_callback (windows.rs
lines 156-162). -/
def skipClasses : List String :=
  ["Windows.UI.Core.CoreWindow", "Shell_TrayWnd", "Shell_SecondaryTrayWnd",
   "Progman", "WorkerW"]

/-- enum_windows_callback (windows.rs lines 136-196) for one handle: skip
invisible, skip empty title, skip denylisted classes, skip tool windows
without the no-activate flag, otherwise push the record (visible is
hard-coded true at the push site). -/
def enumStep (os : OS) (h : Int) : Option WindowInfo :=
  if winVisible os h = false then none
  else
    if winTitle os h = "" then none
    else
      if skipClasses.contains (winClass os h) then none
      else
        if winExStyle os h &&& WS_EX_TOOLWINDOW = WS_EX_TOOLWINDOW ∧
            ¬ winExStyle os h &&& WS_EX_NOACTIVATE = WS_EX_NOACTIVATE then none
        else
          some { handle := h
                 title := winTitle os h
                 process_id := winPid os h
                 class_name := winClass os h
                 visible := true
                 x := (winRectInfo os h).1
                 y := (winRectInfo os h).2.1
                 width := (winRectInfo os h).2.2.1
                 height := (winRectInfo os h).2.2.2
                 path := winPath os h }

/-- get_windows (windows.rs lines 199-212): runs the callback over the
enumeration order; the Result of EnumWindows itself is discarded with
let _ = ... , so the function always returns Ok. -/
def get_windows (os : OS) : Except NapiError (List WindowInfo) :=
  .ok (os.enumOrder.filterMap (enumStep os))

/-- get_window_info (windows.rs lines 215-243): Ok(None) for the null handle,
otherwise unconditionally Ok(Some) of a record assembled from the OS queries
(which degrade to defaults for a dead handle). -/
def get_window_info (os : OS) (h : Int) :
    Except NapiError (Option WindowInfo) :=
  if h = 0 then .ok none
  else
    .ok (some { handle := h
                title := winTitle os h
                process_id := winPid os h
                class_name := winClass os h
                visible := winVisible os h
                x := (winRectInfo os h).1
                y := (winRectInfo os h).2.1
                width := (winRectInfo os h).2.2.1
                height := (winRectInfo os h).2.2.2
                path := winPath os h })

end Win32

/-- The CLICK_THROUGH_STATE table of linux.rs / macos.rs: a HashMap from
handle to flag, embedded as an association list whose lookup takes the most
recent binding (extensionally the HashMap insert/get behaviour). -/
abbrev CTTable : Type := List (Int × Bool)

/-- HashMap::insert. -/
def tableInsert (t : CTTable) (h : Int) (e : Bool) : CTTable := (h, e) :: t

/-- state.get(&handle).unwrap_or(&false). -/
def tableGet (t : CTTable) (h : Int) : Bool :=
  match List.find? (fun p => p.1 == h) t with
  | some p => p.2
  | none => false

namespace X11

/-- The _NET_WM_STATE map state IsViewable. -/
def IsViewable : Int := 2

/-- The XWindowAttributes fields the code reads (linux.rs). -/
structure Attrs where
  mapState : Int
  x : Int
  y : Int
  width : Int
  height : Int
deriving DecidableEq, Repr

/-- The X11 server state: whether XOpenDisplay succeeds, the root window's
_NET_CLIENT_LIST, and per window the combined title lookup of
get_window_name (XFetchName falling back to _NET_WM_NAME; "" when both fail),
the _NET_WM_PID lookup of get_window_pid (0 when absent), and the
XGetWindowAttributes result (none = the call fails).  Window ids (u64 in the
source) and handles (i64) share the Int value space; the source's u64/i64
casts are embedded as the identity. -/
structure OS where
  displayOk : Bool
  clientList : List Int
  name : Int → String
  pid : Int → Nat
  attrs : Int → Option Attrs

/-- The mutable state touched by the linux backend: the CLICK_THROUGH_STATE
table and the X server's per-window input shape (true = empty input region
installed via XShapeCombineRegion, false = reset via XShapeCombineMask),
recorded with the same most-recent-binding representation. -/
structure State where
  table : CTTable
  inputShape : CTTable
deriving DecidableEq

/-- set_click_through (linux.rs lines 32-78): opens the display (failing with
the display error), applies the shape operation to the window — there is no
null-handle check in this backend — then records the state in the table. -/
def set_click_through (os : OS) (st : State) (h : Int) (enable : Bool) :
    Except NapiError State :=
  if os.displayOk = false then .error displayErr
  else
    .ok { inputShape := tableInsert st.inputShape h enable
          table := tableInsert st.table h enable }

/-- is_click_through (linux.rs lines 88-94): table lookup defaulting to
false; both branches return Ok. -/
def is_click_through (st : State) (h : Int) : Except NapiError Bool :=
  .ok (tableGet st.table h)

/-- toggle_click_through (linux.rs lines 81-85). -/
def toggle_click_through (os : OS) (st : State) (h : Int) :
    Except NapiError (State × Bool) := do
  let current ← is_click_through st h
  let st2 ← set_click_through os st h (!current)
  pure (st2, !current)

/-- Two toggle_click_through calls in sequence on the same handle; the value
is the one the second call returns. -/
def toggleTwice (os : OS) (st : State) (h : Int) : Except NapiError Bool := do
  let r1 ← toggle_click_through os st h
  let r2 ← toggle_click_through os r1.1 h
  pure r2.2

/-- The WindowRecord that get_windows builds for a qualifying client-list
window w with attributes a. -/
def enumRecord (os : OS) (w : Int) (a : Attrs) : WindowInfo :=
  { handle := w
    title := os.name w
    process_id := os.pid w
    class_name := ""
    visible := true
    x := a.x
    y := a.y
    width := a.width
    height := a.height
    path := "" }

/-- get_windows (linux.rs lines 244-291) for one client-list window: skip an
empty title, read the pid, skip a window whose XGetWindowAttributes call
fails, skip an unmapped window, otherwise build the record.  (The source
record literal omits the path field of WindowInfo — it does not compile
against lib.rs as given; the model completes it with the type's empty-string
default.) -/
def enumStep (os : OS) (w : Int) : Option WindowInfo :=
  if os.name w = "" then none
  else
    match os.attrs w with
    | none => none
    | some a =>
      if a.mapState ≠ IsViewable then none
      else some (enumRecord os w a)

/-- get_windows (linux.rs lines 244-291): fails when the display cannot be
opened, otherwise folds enumStep over _NET_CLIENT_LIST. -/
def get_windows (os : OS) : Except NapiError (List WindowInfo) :=
  if os.displayOk = false then .error displayErr
  else .ok (os.clientList.filterMap (enumStep os))

/-- get_window_info (linux.rs lines 294-326): fails when the display cannot
be opened; returns Ok(None) when XGetWindowAttributes fails for the handle;
otherwise Ok(Some) with visible = (map_state == IsViewable). -/
def get_window_info (os : OS) (h : Int) :
    Except NapiError (Option WindowInfo) :=
  if os.displayOk = false then .error displayErr
  else
    match os.attrs h with
    | none => .ok none
    | some a =>
      .ok (some { handle := h
                  title := os.name h
                  process_id := os.pid h
                  class_name := ""
                  visible := decide (a.mapState = IsViewable)
                  x := a.x
                  y := a.y
                  width := a.width
                  height := a.height
                  path := "" })

end X11

namespace MacOS

/-- One CGWindowListCopyWindowInfo dictionary: the optional kCGWindowNumber,
kCGWindowName, kCGWindowOwnerPID and kCGWindowBounds entries (the per-key
unwrap_or(0) defaults inside the bounds dictionary are folded into the
tuple). -/
structure CGEntry where
  number : Option Int
  name : Option String
  pid : Option Nat
  bounds : Option (Int × Int × Int × Int)
deriving DecidableEq, Repr

/-- The CoreGraphics window-list state: none = CGWindowListCopyWindowInfo
returns null; inner none = a null entry pointer. -/
structure OS where
  windowList : Option (List (Option CGEntry))

/-- The click-through bookkeeping state of macos.rs: the
CLICK_THROUGH_STATE table plus the per-window ignoresMouseEvents attribute
set through msg_send. -/
structure State where
  table : CTTable
  ignoresMouse : CTTable
deriving DecidableEq

/-- set_click_through (macos.rs lines 18-33): rejects the nil (null pointer,
value 0) handle, otherwise sets ignoresMouseEvents and records the state. -/
def set_click_through (st : State) (h : Int) (enable : Bool) :
    Except NapiError State :=
  if h = 0 then .error invalidHandleErr
  else
    .ok { ignoresMouse := tableInsert st.ignoresMouse h enable
          table := tableInsert st.table h enable }

/-- is_click_through (macos.rs lines 43-49): table lookup defaulting to
false; both branches return Ok. -/
def is_click_through (st : State) (h : Int) : Except NapiError Bool :=
  .ok (tableGet st.table h)

/-- toggle_click_through (macos.rs lines 36-40). -/
def toggle_click_through (st : State) (h : Int) :
    Except NapiError (State × Bool) := do
  let current ← is_click_through st h
  let st2 ← set_click_through st h (!current)
  pure (st2, !current)

/-- Two toggle_click_through calls in sequence on the same handle; the value
is the one the second call returns. -/
def toggleTwice (st : State) (h : Int) : Except NapiError Bool := do
  let r1 ← toggle_click_through st h
  let r2 ← toggle_click_through r1.1 h
  pure r2.2

/-- get_windows (macos.rs lines 52-181) for one array entry: skip a null
entry, skip an entry without kCGWindowNumber, default a missing name to "",
skip an empty title, default pid to 0 and bounds to zeroes, build the record
(the source literal repeats the width field — a slip that does not compile;
the model reads it as the intended single width). -/
def enumStep (e : Option CGEntry) : Option WindowInfo :=
  match e with
  | none => none
  | some e =>
    match e.number with
    | none => none
    | some h =>
      let title := e.name.getD ""
      if title = "" then none
      else
        some { handle := h
               title := title
               process_id := e.pid.getD 0
               class_name := ""
               visible := true
               x := (e.bounds.getD (0, 0, 0, 0)).1
               y := (e.bounds.getD (0, 0, 0, 0)).2.1
               width := (e.bounds.getD (0, 0, 0, 0)).2.2.1
               height := (e.bounds.getD (0, 0, 0, 0)).2.2.2
               path := "" }

/-- get_windows (macos.rs lines 52-181): a null window list yields Ok(vec![]),
otherwise the filtered records. -/
def get_windows (os : OS) : Except NapiError (List WindowInfo) :=
  match os.windowList with
  | none => .ok []
  | some arr => .ok (arr.filterMap enumStep)

/-- get_window_info (macos.rs lines 184-187): find over the enumeration. -/
def get_window_info (os : OS) (h : Int) :
    Except NapiError (Option WindowInfo) := do
  let windows ← get_windows os
  pure (List.find? (fun w => w.handle == h) windows)

end MacOS

/-- get_window_process_path of platform/mod.rs (lines 76-82), compiled on
every platform other than Windows: unconditionally the not-implemented
error (the spec's Unsupported), for every handle. -/
def nonwin_get_window_process_path (_h : Int) : Except NapiError String :=
  .error notImplementedErr

namespace Lib

/-- str::to_lowercase, embedded as the per-character lowering over the
character list (the inputs of the claims are ASCII, where the two agree). -/
def lowercase (s : String) : String := { data := s.data.map Char.toLower }

/-- str::contains on string slices: substring containment. -/
def listInfixOf : List Char → List Char → Bool
  | pat, [] => pat.isEmpty
  | pat, c :: rest => pat.isPrefixOf (c :: rest) || listInfixOf pat rest

/-- str::contains(needle) for hay.contains(needle). -/
def strContainsSub (hay needle : String) : Bool :=
  listInfixOf needle.data hay.data

/-- The filter predicate of find_windows_by_title (lib.rs lines 97-103). -/
def titleMatches (exact : Bool) (needle : String) (w : WindowInfo) : Bool :=
  if exact then w.title == needle
  else strContainsSub (lowercase w.title) (lowercase needle)

/-- find_windows_by_title (lib.rs lines 90-107), parametrised by the result
of the platform::get_windows() call it makes: exact defaults to false, the
platform error propagates through the ? operator, and the list is filtered
by title match. -/
def find_windows_by_title (getRes : Except NapiError (List WindowInfo))
    (title : String) (exact : Option Bool) :
    Except NapiError (List WindowInfo) := do
  let all ← getRes
  pure (all.filter (titleMatches (exact.getD false) title))

/-- find_window_by_title (lib.rs lines 109-114): first element of the
find_windows_by_title result. -/
def find_window_by_title (getRes : Except NapiError (List WindowInfo))
    (title : String) (exact : Option Bool) :
    Except NapiError (Option WindowInfo) := do
  let windows ← find_windows_by_title getRes title exact
  pure windows.head?

/-- f64::clamp(0.0, 1.0) on the non-NaN inputs of the claims, embedded over
the rationals (the comparisons against 0 and 1 are exact for these values). -/
def rustClamp (v lo hi : ℚ) : ℚ :=
  if v < lo then lo else if v > hi then hi else v

/-- set_window_opacity (lib.rs lines 131-136), parametrised by the platform
backend it dispatches to: the opacity is clamped to [0, 1] before the
dispatch. -/
def set_window_opacity (backend : Int → ℚ → Except NapiError Unit)
    (h : Int) (opacity : ℚ) : Except NapiError Unit :=
  backend h (rustClamp opacity 0 1)

end Lib

/-! Concrete states used by the counterexamples and the witnesses. -/

/-- A Win32 OS in which no handle resolves to a live window. -/
def deadWin32OS : Win32.OS :=
  { windows := fun _ => none, processes := fun _ => none, enumOrder := [] }

/-- A live sample window behind handle 1 of the sample Win32 OS. -/
def sampleWin : Win32.Window :=
  { visible := true, title := "Notepad", className := "Notepad",
    exStyle := 0, rect := some (1, 2, 11, 22), pid := 7 }

/-- A sample Win32 OS: one live window at handle 1, owned by the openable
process 7. -/
def wOS : Win32.OS :=
  { windows := fun k => if k = 1 then some sampleWin else none,
    processes := fun p => if p = 7 then some "C:\\np.exe" else none,
    enumOrder := [1] }

/-- The enumeration record the sample Win32 OS yields for handle 1. -/
def wRec : WindowInfo :=
  { handle := 1, title := "Notepad", process_id := 7, class_name := "Notepad",
    visible := true, x := 1, y := 2, width := 10, height := 20,
    path := "C:\\np.exe" }

/-- Viable sample X11 window attributes. -/
def xAttrsOk : X11.Attrs :=
  { mapState := 2, x := 0, y := 0, width := 10, height := 20 }

/-- A sample X11 OS whose display opens: three client windows, the attribute
read for window 2 fails, windows 1 and 3 are viable and titled. -/
def xOS : X11.OS :=
  { displayOk := true,
    clientList := [1, 2, 3],
    name := fun w => if w = 1 then "Alpha" else if w = 3 then "Gamma" else "Beta",
    pid := fun _ => 5,
    attrs := fun w => if w = 2 then none else some xAttrsOk }

/-- An X11 OS whose display cannot be opened. -/
def xBadOS : X11.OS :=
  { displayOk := false, clientList := [], name := fun _ => "",
    pid := fun _ => 0, attrs := fun _ => none }

/-- The empty initial click-through state of the linux backend. -/
def x11Init : X11.State := { table := [], inputShape := [] }

/-- The empty initial click-through state of the macOS backend. -/
def macInit : MacOS.State := { table := [], ignoresMouse := [] }

/-- A sample CoreGraphics window dictionary. -/
def macEntry : MacOS.CGEntry :=
  { number := some 7, name := some "Term", pid := some 3,
    bounds := some (1, 2, 3, 4) }

/-- A sample CoreGraphics window list: a null entry, a titled window, and an
untitled window. -/
def macOSok : MacOS.OS :=
  { windowList := some
      [none, some macEntry,
       some { number := some 8, name := none, pid := none, bounds := none }] }

/-- The enumeration record the sample CoreGraphics list yields. -/
def macRec : WindowInfo :=
  { handle := 7, title := "Term", process_id := 3, class_name := "",
    visible := true, x := 1, y := 2, width := 3, height := 4, path := "" }

/-! Helper lemmas shared across the claims. -/

theorem except_bind_ok {ε α β : Type} (a : α) (f : α → Except ε β) :
    (Except.ok a >>= f : Except ε β) = f a := rfl

theorem tableGet_insert (t : CTTable) (h : Int) (e : Bool) :
    tableGet (tableInsert t h e) h = e := by
  unfold tableGet tableInsert
  rw [List.find?_cons_of_pos _ (by simp)]

theorem and_transparent_enable (ex : Nat) :
    (ex ||| (Win32.WS_EX_TRANSPARENT ||| Win32.WS_EX_LAYERED)) &&&
      Win32.WS_EX_TRANSPARENT = Win32.WS_EX_TRANSPARENT := by
  apply Nat.eq_of_testBit_eq
  intro i
  rw [show Win32.WS_EX_TRANSPARENT = 2 ^ 5 from rfl,
      show Win32.WS_EX_LAYERED = 2 ^ 19 from rfl]
  simp only [Nat.testBit_and, Nat.testBit_or, Nat.testBit_two_pow]
  by_cases h : 5 = i
  · subst h
    simp
  · simp [h]

theorem and_transparent_disable (ex : Nat) :
    ((ex ^^^ (ex &&& Win32.WS_EX_TRANSPARENT)) ||| Win32.WS_EX_LAYERED) &&&
      Win32.WS_EX_TRANSPARENT = 0 := by
  apply Nat.eq_of_testBit_eq
  intro i
  rw [show Win32.WS_EX_TRANSPARENT = 2 ^ 5 from rfl,
      show Win32.WS_EX_LAYERED = 2 ^ 19 from rfl]
  simp only [Nat.testBit_and, Nat.testBit_or, Nat.testBit_xor,
    Nat.testBit_two_pow, Nat.zero_testBit]
  by_cases h : 5 = i
  · subst h
    simp [Bool.xor_self]
  · simp [h]

theorem newExStyle_transparent_bit (ex : Nat) (e : Bool) :
    decide (Win32.newExStyle ex e &&& Win32.WS_EX_TRANSPARENT ≠ 0) = e := by
  cases e
  · rw [show Win32.newExStyle ex false =
          (ex ^^^ (ex &&& Win32.WS_EX_TRANSPARENT)) ||| Win32.WS_EX_LAYERED from
        rfl,
      and_transparent_disable ex]
    decide
  · rw [show Win32.newExStyle ex true =
          ex ||| (Win32.WS_EX_TRANSPARENT ||| Win32.WS_EX_LAYERED) from rfl,
      and_transparent_enable ex]
    decide

theorem winExStyle_set_self (os : Win32.OS) (h : Int) (v : Nat)
    (w : Win32.Window) (hw : os.windows h = some w) :
    Win32.winExStyle (Win32.winSetExStyle os h v) h = v := by
  simp [Win32.winExStyle, Win32.winSetExStyle, hw]

theorem win_is_click_through_eq (os : Win32.OS) (h : Int) (h0 : ¬ h = 0) :
    Win32.is_click_through os h =
      .ok (decide (Win32.winExStyle os h &&& Win32.WS_EX_TRANSPARENT ≠ 0)) := by
  simp [Win32.is_click_through, h0]

theorem win_set_click_through_eq (os : Win32.OS) (h : Int) (e : Bool)
    (h0 : ¬ h = 0) :
    Win32.set_click_through os h e =
      .ok (Win32.winSetExStyle os h
            (Win32.newExStyle (Win32.winExStyle os h) e)) := by
  simp [Win32.set_click_through, h0]

theorem win_toggle_eq (os : Win32.OS) (h : Int) (h0 : ¬ h = 0) :
    Win32.toggle_click_through os h =
      .ok (Win32.winSetExStyle os h
            (Win32.newExStyle (Win32.winExStyle os h)
              (!decide (Win32.winExStyle os h &&& Win32.WS_EX_TRANSPARENT ≠ 0))),
           !decide (Win32.winExStyle os h &&& Win32.WS_EX_TRANSPARENT ≠ 0)) := by
  unfold Win32.toggle_click_through
  rw [win_is_click_through_eq os h h0, except_bind_ok,
      win_set_click_through_eq os h _ h0, except_bind_ok]
  rfl

theorem x11_set_click_through_eq (os : X11.OS) (st : X11.State) (h : Int)
    (e : Bool) (hd : os.displayOk = true) :
    X11.set_click_through os st h e =
      .ok { table := tableInsert st.table h e,
            inputShape := tableInsert st.inputShape h e } := by
  simp [X11.set_click_through, hd]

theorem x11_toggle_eq (os : X11.OS) (st : X11.State) (h : Int)
    (hd : os.displayOk = true) :
    X11.toggle_click_through os st h =
      .ok ({ table := tableInsert st.table h (!tableGet st.table h),
             inputShape := tableInsert st.inputShape h (!tableGet st.table h) },
           !tableGet st.table h) := by
  unfold X11.toggle_click_through X11.is_click_through
  rw [except_bind_ok, x11_set_click_through_eq os st h _ hd, except_bind_ok]
  rfl

theorem mac_set_click_through_eq (st : MacOS.State) (h : Int) (e : Bool)
    (h0 : ¬ h = 0) :
    MacOS.set_click_through st h e =
      .ok { table := tableInsert st.table h e,
            ignoresMouse := tableInsert st.ignoresMouse h e } := by
  simp [MacOS.set_click_through, h0]

theorem mac_toggle_eq (st : MacOS.State) (h : Int) (h0 : ¬ h = 0) :
    MacOS.toggle_click_through st h =
      .ok ({ table := tableInsert st.table h (!tableGet st.table h),
             ignoresMouse := tableInsert st.ignoresMouse h (!tableGet st.table h) },
           !tableGet st.table h) := by
  unfold MacOS.toggle_click_through MacOS.is_click_through
  rw [except_bind_ok, mac_set_click_through_eq st h _ h0, except_bind_ok]
  rfl

/-- Claim C3: for every valid handle, toggling click-through twice in
sequence returns, on the second call, the value is_click_through had before
the first call, on all three backends (a valid handle means: live and
non-null on Win32, a working display on X11, a non-null handle on macOS). -/
theorem c3_toggle_round_trip :
    (∀ (os : Win32.OS) (h : Int) (w : Win32.Window) (b : Bool),
      os.windows h = some w → ¬ h = 0 → Win32.is_click_through os h = .ok b →
      Win32.toggleTwice os h = .ok b) ∧
    (∀ (os : X11.OS) (st : X11.State) (h : Int) (b : Bool),
      os.displayOk = true → X11.is_click_through st h = .ok b →
      X11.toggleTwice os st h = .ok b) ∧
    (∀ (st : MacOS.State) (h : Int) (b : Bool),
      ¬ h = 0 → MacOS.is_click_through st h = .ok b →
      MacOS.toggleTwice st h = .ok b) := by
  refine ⟨?_, ?_, ?_⟩
  · intro os h w b hw h0 hb
    rw [win_is_click_through_eq os h h0] at hb
    have hbv : decide (Win32.winExStyle os h &&& Win32.WS_EX_TRANSPARENT ≠ 0) = b :=
      Except.ok.inj hb
    unfold Win32.toggleTwice
    rw [win_toggle_eq os h h0, except_bind_ok]
    dsimp only
    rw [win_toggle_eq _ h h0, except_bind_ok]
    dsimp only
    rw [winExStyle_set_self os h _ w hw, newExStyle_transparent_bit, hbv,
        Bool.not_not]
    rfl
  · intro os st h b hd hb
    have hbv : tableGet st.table h = b := Except.ok.inj hb
    unfold X11.toggleTwice
    rw [x11_toggle_eq os st h hd, except_bind_ok]
    dsimp only
    rw [x11_toggle_eq os _ h hd, except_bind_ok]
    dsimp only
    rw [tableGet_insert, hbv, Bool.not_not]
    rfl
  · intro st h b h0 hb
    have hbv : tableGet st.table h = b := Except.ok.inj hb
    unfold MacOS.toggleTwice
    rw [mac_toggle_eq st h h0, except_bind_ok]
    dsimp only
    rw [mac_toggle_eq _ h h0, except_bind_ok]
    dsimp only
    rw [tableGet_insert, hbv, Bool.not_not]
    rfl

/-- Witness for C3: on each backend, on a concrete valid handle whose
initial click-through value is false, the second of two toggles returns
false again. -/
theorem c3_toggle_round_trip_witness :
    Win32.toggleTwice wOS 1 = .ok false ∧
    X11.toggleTwice xOS x11Init 5 = .ok false ∧
    MacOS.toggleTwice macInit 5 = .ok false :=
  ⟨c3_toggle_round_trip.1 wOS 1 sampleWin false rfl (by decide) rfl,
   c3_toggle_round_trip.2.1 xOS x11Init 5 false rfl rfl,
   c3_toggle_round_trip.2.2 macInit 5 false (by decide) rfl⟩

/-- Claim C7: set_window_opacity clamps the opacity into [0, 1] before
dispatching to the platform backend, so -0.5 behaves identically to 0.0 and
1.7 behaves identically to 1.0, for every backend and handle. -/
theorem c7_opacity_clamped :
    ∀ (backend : Int → ℚ → Except NapiError Unit) (h : Int),
      Lib.set_window_opacity backend h (-(1 / 2)) =
        Lib.set_window_opacity backend h 0 ∧
      Lib.set_window_opacity backend h (17 / 10) =
        Lib.set_window_opacity backend h 1 := by
  intro backend h
  constructor
  · unfold Lib.set_window_opacity
    norm_num [Lib.rustClamp]
  · unfold Lib.set_window_opacity
    norm_num [Lib.rustClamp]

/-- Claim C6: find_windows_by_title with exact=false includes an enumerated
window iff the lowercased title contains the lowercased query as a
substring, and with exact=true iff the title equals the query exactly;
concretely, "Notepad" matches the title "My Notepad - file.txt" in substring
mode and does not match it in exact mode. -/
theorem c6_find_by_title_matching :
    (∀ (l : List WindowInfo) (t : String) (w : WindowInfo),
      (w ∈ (Lib.find_windows_by_title (.ok l) t (some false)).toOption.getD [] ↔
        w ∈ l ∧
          Lib.strContainsSub (Lib.lowercase w.title) (Lib.lowercase t) = true) ∧
      (w ∈ (Lib.find_windows_by_title (.ok l) t (some true)).toOption.getD [] ↔
        w ∈ l ∧ w.title = t)) ∧
    Lib.strContainsSub (Lib.lowercase "My Notepad - file.txt")
        (Lib.lowercase "Notepad") = true ∧
    (("My Notepad - file.txt" : String) == "Notepad") = false := by
  refine ⟨?_, ?_, ?_⟩
  · intro l t w
    constructor
    · show w ∈ l.filter (Lib.titleMatches false t) ↔ _
      simp [List.mem_filter, Lib.titleMatches]
    · show w ∈ l.filter (Lib.titleMatches true t) ↔ _
      simp [List.mem_filter, Lib.titleMatches]
  · rfl
  · rfl

/-- Claim C10: find_window_by_title fails exactly when find_windows_by_title
fails (with the same error), returns None exactly when the list is empty,
and otherwise returns Some of the first element of the list. -/
theorem c10_find_first_consistent :
    (∀ (getRes : Except NapiError (List WindowInfo)) (t : String)
        (e : Option Bool) (err : NapiError),
      Lib.find_windows_by_title getRes t e = .error err ↔
        Lib.find_window_by_title getRes t e = .error err) ∧
    (∀ getRes t e, Lib.find_windows_by_title getRes t e = .ok [] →
      Lib.find_window_by_title getRes t e = .ok none) ∧
    (∀ getRes t e x xs,
      Lib.find_windows_by_title getRes t e = .ok (x :: xs) →
      Lib.find_window_by_title getRes t e = .ok (some x)) ∧
    (∀ getRes t e, Lib.find_window_by_title getRes t e = .ok none →
      Lib.find_windows_by_title getRes t e = .ok []) := by
  have hfw : ∀ getRes t e, Lib.find_window_by_title getRes t e =
      (Lib.find_windows_by_title getRes t e).map List.head? := by
    intro getRes t e
    unfold Lib.find_window_by_title
    cases hres : Lib.find_windows_by_title getRes t e <;> rfl
  refine ⟨?_, ?_, ?_, ?_⟩
  · intro getRes t e err
    rw [hfw]
    cases hres : Lib.find_windows_by_title getRes t e <;> simp [Except.map]
  · intro getRes t e hemp
    rw [hfw, hemp]
    rfl
  · intro getRes t e x xs hcons
    rw [hfw, hcons]
    rfl
  · intro getRes t e hnone
    rw [hfw] at hnone
    cases hres : Lib.find_windows_by_title getRes t e
    · rw [hres] at hnone
      simp [Except.map] at hnone
    · rw [hres] at hnone
      simp only [Except.map, Except.ok.injEq] at hnone
      rw [List.head?_eq_none_iff.mp hnone]

/-- Witness for C10: on concrete inputs, the empty list yields Ok(None) and
a singleton match yields Ok(Some first). -/
theorem c10_find_first_consistent_witness :
    Lib.find_window_by_title (.ok []) "x" none = .ok none ∧
    Lib.find_window_by_title (.ok [wRec]) "notepad" none = .ok (some wRec) :=
  ⟨c10_find_first_consistent.2.1 (.ok []) "x" none rfl,
   c10_find_first_consistent.2.2.1 (.ok [wRec]) "notepad" none wRec [] (by rfl)⟩

/-- Claim C9: get_window_process_path fails with the not-implemented
(Unsupported) error for every handle on every platform other than Win32; on
Win32 it resolves the owning pid from the handle and returns that process's
module path, failing with the open-process error when the process cannot be
opened. -/
theorem c9_process_path_platform :
    (∀ h : Int, nonwin_get_window_process_path h = .error notImplementedErr) ∧
    (∀ (os : Win32.OS) (h : Int) (p : String), ¬ h = 0 →
      os.processes (Win32.winPid os h) = some p →
      Win32.get_window_process_path os h = .ok p) ∧
    (∀ (os : Win32.OS) (h : Int), ¬ h = 0 →
      os.processes (Win32.winPid os h) = none →
      Win32.get_window_process_path os h = .error openProcessErr) := by
  refine ⟨fun h => rfl, ?_, ?_⟩
  · intro os h p h0 hp
    unfold Win32.get_window_process_path
    rw [if_neg h0, hp]
  · intro os h h0 hp
    unfold Win32.get_window_process_path
    rw [if_neg h0, hp]

/-- Witness for C9: on the sample Win32 OS, handle 1 resolves to pid 7 and
its module path, while handle 2 (pid 0, unopenable) fails. -/
theorem c9_process_path_platform_witness :
    nonwin_get_window_process_path 3 = .error notImplementedErr ∧
    Win32.get_window_process_path wOS 1 = .ok "C:\\np.exe" ∧
    Win32.get_window_process_path wOS 2 = .error openProcessErr :=
  ⟨c9_process_path_platform.1 3,
   c9_process_path_platform.2.1 wOS 1 _ (by decide) rfl,
   c9_process_path_platform.2.2 wOS 2 (by decide) rfl⟩

/-- Counterexample to C2 as stated: on X11, set_click_through with the null
sentinel handle 0 does not fail with InvalidHandle — with an openable
display it returns Ok, installs the empty input shape on window 0 and
records the state for handle 0. -/
theorem c2_counterexample :
    X11.set_click_through xOS x11Init 0 true =
      .ok { table := [(0, true)], inputShape := [(0, true)] } := rfl

/-- Claim C2 (amended): the null sentinel is rejected with InvalidHandle
before any OS call on Win32 and Cocoa; the X11 backend performs no
null-handle check — with an openable display, set_click_through(0, enabled)
succeeds, applying the shape operation to window 0 and recording its state,
and it fails (with the display error, not InvalidHandle) only when the
display cannot be opened. -/
theorem c2_amended_null_sentinel :
    (∀ (os : Win32.OS) (e : Bool),
      Win32.set_click_through os 0 e = .error invalidHandleErr) ∧
    (∀ (st : MacOS.State) (e : Bool),
      MacOS.set_click_through st 0 e = .error invalidHandleErr) ∧
    (∀ (os : X11.OS) (st : X11.State) (e : Bool), os.displayOk = true →
      X11.set_click_through os st 0 e =
        .ok { table := tableInsert st.table 0 e,
              inputShape := tableInsert st.inputShape 0 e }) ∧
    (∀ (os : X11.OS) (st : X11.State) (e : Bool), os.displayOk = false →
      X11.set_click_through os st 0 e = .error displayErr) := by
  refine ⟨fun os e => rfl, fun st e => rfl, ?_, ?_⟩
  · intro os st e hd
    exact x11_set_click_through_eq os st 0 e hd
  · intro os st e hd
    simp [X11.set_click_through, hd]

/-- Witness for C2 amended: concrete null-handle calls on each backend. -/
theorem c2_amended_null_sentinel_witness :
    Win32.set_click_through wOS 0 true = .error invalidHandleErr ∧
    MacOS.set_click_through macInit 0 true = .error invalidHandleErr ∧
    X11.set_click_through xOS x11Init 0 true =
      .ok { table := tableInsert x11Init.table 0 true,
            inputShape := tableInsert x11Init.inputShape 0 true } ∧
    X11.set_click_through xBadOS x11Init 0 true = .error displayErr :=
  ⟨c2_amended_null_sentinel.1 wOS true,
   c2_amended_null_sentinel.2.1 macInit true,
   c2_amended_null_sentinel.2.2.1 xOS x11Init true rfl,
   c2_amended_null_sentinel.2.2.2 xBadOS x11Init true rfl⟩

theorem win_enumStep_props (os : Win32.OS) (h : Int) (w : WindowInfo)
    (hs : Win32.enumStep os h = some w) :
    w.title ≠ "" ∧ Win32.skipClasses.contains w.class_name = false := by
  unfold Win32.enumStep at hs
  split at hs
  · exact Option.noConfusion hs
  split at hs
  · exact Option.noConfusion hs
  split at hs
  · exact Option.noConfusion hs
  split at hs
  · exact Option.noConfusion hs
  rename_i h1 h2 h3 h4
  cases hs
  exact ⟨h2, Bool.eq_false_iff.mpr h3⟩

theorem x11_enumStep_some (os : X11.OS) (v : Int) (r : WindowInfo)
    (hs : X11.enumStep os v = some r) :
    r.title ≠ "" ∧ r.handle = v ∧ ∃ a, os.attrs v = some a := by
  unfold X11.enumStep at hs
  split at hs
  · exact Option.noConfusion hs
  rename_i hname
  split at hs
  · exact Option.noConfusion hs
  rename_i a hattr
  split at hs
  · exact Option.noConfusion hs
  cases hs
  exact ⟨hname, rfl, a, hattr⟩

theorem x11_enumStep_pos (os : X11.OS) (v : Int) (a : X11.Attrs)
    (hname : ¬ os.name v = "") (hattr : os.attrs v = some a)
    (hmap : a.mapState = X11.IsViewable) :
    X11.enumStep os v = some (X11.enumRecord os v a) := by
  unfold X11.enumStep
  rw [if_neg hname, hattr]
  simp [hmap]

theorem mac_enumStep_some (e : Option MacOS.CGEntry) (r : WindowInfo)
    (hs : MacOS.enumStep e = some r) : r.title ≠ "" := by
  unfold MacOS.enumStep at hs
  split at hs
  · exact Option.noConfusion hs
  rename_i entry
  split at hs
  · exact Option.noConfusion hs
  rename_i hnum
  dsimp only at hs
  split at hs
  · exact Option.noConfusion hs
  rename_i htitle
  cases hs
  exact htitle

/-- Claim C4: window enumeration never returns a record whose title is the
empty string, on any platform, for any OS-reported input. -/
theorem c4_no_empty_title :
    (∀ (os : Win32.OS) (l : List WindowInfo), Win32.get_windows os = .ok l →
      ∀ w ∈ l, w.title ≠ "") ∧
    (∀ (os : X11.OS) (l : List WindowInfo), X11.get_windows os = .ok l →
      ∀ w ∈ l, w.title ≠ "") ∧
    (∀ (os : MacOS.OS) (l : List WindowInfo), MacOS.get_windows os = .ok l →
      ∀ w ∈ l, w.title ≠ "") := by
  refine ⟨?_, ?_, ?_⟩
  · intro os l hl w hw
    have hl2 : l = os.enumOrder.filterMap (Win32.enumStep os) :=
      (Except.ok.inj hl).symm
    subst hl2
    rcases List.mem_filterMap.mp hw with ⟨h, hmem, hstep⟩
    exact (win_enumStep_props os h w hstep).1
  · intro os l hl w hw
    unfold X11.get_windows at hl
    split at hl
    · exact Except.noConfusion hl
    have hl2 : l = os.clientList.filterMap (X11.enumStep os) :=
      (Except.ok.inj hl).symm
    subst hl2
    rcases List.mem_filterMap.mp hw with ⟨v, hmem, hstep⟩
    exact (x11_enumStep_some os v w hstep).1
  · intro os l hl w hw
    unfold MacOS.get_windows at hl
    split at hl
    · cases Except.ok.inj hl
      exact absurd hw (by simp)
    rename_i arr heq
    cases Except.ok.inj hl
    rcases List.mem_filterMap.mp hw with ⟨entry, hmem, hstep⟩
    exact mac_enumStep_some entry w hstep

/-- Witness for C4: the concrete records the three sample enumerations yield
all carry non-empty titles. -/
theorem c4_no_empty_title_witness :
    (wRec.title == "") = false ∧
    ((X11.enumRecord xOS 1 xAttrsOk).title == "") = false ∧
    (macRec.title == "") = false :=
  ⟨beq_eq_false_iff_ne.mpr
     (c4_no_empty_title.1 wOS ((Win32.get_windows wOS).toOption.getD [])
       rfl wRec (by decide)),
   beq_eq_false_iff_ne.mpr
     (c4_no_empty_title.2.1 xOS ((X11.get_windows xOS).toOption.getD [])
       rfl (X11.enumRecord xOS 1 xAttrsOk) (by decide)),
   beq_eq_false_iff_ne.mpr
     (c4_no_empty_title.2.2 macOSok
       ((MacOS.get_windows macOSok).toOption.getD [])
       rfl macRec (by decide))⟩

/-- Claim C5: on Win32, no record whose class name is in the system-window
denylist ever appears in the enumeration output, regardless of visibility
and title. -/
theorem c5_denylist_excluded :
    ∀ (os : Win32.OS) (l : List WindowInfo), Win32.get_windows os = .ok l →
      ∀ w ∈ l, Win32.skipClasses.contains w.class_name = false := by
  intro os l hl w hw
  have hl2 : l = os.enumOrder.filterMap (Win32.enumStep os) :=
    (Except.ok.inj hl).symm
  subst hl2
  rcases List.mem_filterMap.mp hw with ⟨h, hmem, hstep⟩
  exact (win_enumStep_props os h w hstep).2

/-- Witness for C5: the class name of the concrete enumerated record is not
in the denylist. -/
theorem c5_denylist_excluded_witness :
    Win32.skipClasses.contains wRec.class_name = false :=
  c5_denylist_excluded wOS ((Win32.get_windows wOS).toOption.getD []) rfl
    wRec (by decide)

/-- Counterexample to C1 as stated: on Win32, the non-null handle 5 does not
resolve to a live window, yet get_window_info returns Ok(Some) of a
default-degraded record, not the claimed Ok(None). -/
theorem c1_counterexample :
    Win32.get_window_info deadWin32OS 5 =
      .ok (some { handle := 5, title := "", process_id := 0, class_name := "",
                  visible := false, x := 0, y := 0, width := 0, height := 0,
                  path := "" }) := rfl

/-- Claim C1 (amended): a stale handle never makes the single-window lookup
raise; on X11 (display open) a handle whose attribute read fails yields
Ok(None), and on macOS a handle absent from the current enumeration yields
Ok(None); on Win32, however, the lookup returns Ok(None) exactly for the
null handle 0 and returns Ok(Some) of a default-degraded record for every
other handle, live or not. -/
theorem c1_amended_lookup_absent :
    (∀ (os : Win32.OS) (h : Int),
      (Win32.get_window_info os h = .ok none ↔ h = 0) ∧
      (Win32.get_window_info os h).isOk = true) ∧
    (∀ (os : X11.OS) (h : Int), os.displayOk = true → os.attrs h = none →
      X11.get_window_info os h = .ok none) ∧
    (∀ (os : MacOS.OS) (h : Int) (l : List WindowInfo),
      MacOS.get_windows os = .ok l → (∀ w ∈ l, (w.handle == h) = false) →
      MacOS.get_window_info os h = .ok none) := by
  refine ⟨?_, ?_, ?_⟩
  · intro os h
    by_cases h0 : h = 0
    · subst h0
      constructor
      · simp [Win32.get_window_info]
      · rfl
    · constructor
      · unfold Win32.get_window_info
        rw [if_neg h0]
        simp [h0]
      · unfold Win32.get_window_info
        rw [if_neg h0]
        rfl
  · intro os h hd hattr
    unfold X11.get_window_info
    rw [if_neg (by simp [hd]), hattr]
  · intro os h l hl hnone
    unfold MacOS.get_window_info
    rw [hl, except_bind_ok]
    have hfind : List.find? (fun w => w.handle == h) l = none :=
      List.find?_eq_none.mpr (by
        intro x hx
        simp [hnone x hx])
    rw [hfind]
    rfl

/-- Witness for C1 amended: concrete lookups on each backend. -/
theorem c1_amended_lookup_absent_witness :
    Win32.get_window_info wOS 0 = .ok none ∧
    (Win32.get_window_info wOS 5).isOk = true ∧
    X11.get_window_info xOS 2 = .ok none ∧
    MacOS.get_window_info macOSok 99 = .ok none :=
  ⟨(c1_amended_lookup_absent.1 wOS 0).1.mpr rfl,
   (c1_amended_lookup_absent.1 wOS 5).2,
   c1_amended_lookup_absent.2.1 xOS 2 rfl rfl,
   c1_amended_lookup_absent.2.2 macOSok 99
     ((MacOS.get_windows macOSok).toOption.getD []) rfl (by decide)⟩

/-- Claim C8: enumeration errors atomically on session-level failure and
skips individual windows on per-window failure: when the X11 display cannot
be opened, get_windows returns the display error and no partial list; once
the display is open, a client window whose attribute read fails contributes
no record (no returned record carries its id) while every qualifying window
still contributes its record to the successful result. -/
theorem c8_enumeration_failure_policy :
    (∀ os : X11.OS, os.displayOk = false →
      X11.get_windows os = .error displayErr) ∧
    (∀ (os : X11.OS) (l : List WindowInfo), os.displayOk = true →
      X11.get_windows os = .ok l →
      (∀ v ∈ os.clientList, os.attrs v = none →
        ∀ r ∈ l, (r.handle == v) = false) ∧
      (∀ (v : Int) (a : X11.Attrs), v ∈ os.clientList → ¬ os.name v = "" →
        os.attrs v = some a → a.mapState = X11.IsViewable →
        X11.enumRecord os v a ∈ l)) := by
  refine ⟨?_, ?_⟩
  · intro os hd
    unfold X11.get_windows
    rw [if_pos hd]
  · intro os l hd hl
    unfold X11.get_windows at hl
    rw [if_neg (by simp [hd])] at hl
    cases Except.ok.inj hl
    constructor
    · intro v hv hattr r hr
      rcases List.mem_filterMap.mp hr with ⟨u, hu, hstep⟩
      rcases x11_enumStep_some os u r hstep with ⟨-, hhandle, a, hau⟩
      by_cases huv : u = v
      · subst huv
        rw [hattr] at hau
        exact Option.noConfusion hau
      · rw [hhandle]
        exact beq_eq_false_iff_ne.mpr huv
    · intro v a hv hname hattr hmap
      exact List.mem_filterMap.mpr ⟨v, hv, x11_enumStep_pos os v a hname hattr hmap⟩

/-- Witness for C8: the sample failing display errors; in the sample open
display, window 2 (failed attribute read) yields no record while the
qualifying window 3 is returned. -/
theorem c8_enumeration_failure_policy_witness :
    X11.get_windows xBadOS = .error displayErr ∧
    ((X11.enumRecord xOS 1 xAttrsOk).handle == (2 : Int)) = false ∧
    X11.enumRecord xOS 3 xAttrsOk ∈ (X11.get_windows xOS).toOption.getD [] :=
  ⟨c8_enumeration_failure_policy.1 xBadOS rfl,
   (c8_enumeration_failure_policy.2 xOS
       ((X11.get_windows xOS).toOption.getD []) rfl rfl).1 2 (by decide) rfl
     (X11.enumRecord xOS 1 xAttrsOk) (by decide),
   (c8_enumeration_failure_policy.2 xOS
       ((X11.get_windows xOS).toOption.getD []) rfl rfl).2 3 xAttrsOk
     (by decide) (by decide) rfl rfl⟩
